import Mathlib

/-!
Verification of the miniwiki client-side script (`assets/js/wiki.js`).

Strings of the JavaScript source are modelled as `List Char`, so that the
string operations the script uses (`toLowerCase`, `trim`, `includes`,
`join`, concatenation, template interpolation) become ordinary list
functions, and substring containment becomes `List.IsInfix` (`<:+:`).

Each definition below is a direct translation of the correspondingly named
function of `wiki.js`; doc comments cite the source construct.
-/

/-- JavaScript strings, modelled as lists of characters. -/
abbrev Str := List Char

/-- Whitespace in the sense of JavaScript `\s` / `String.prototype.trim`
(space, tab, line feed, carriage return, vertical tab, form feed,
no-break space). -/
def jsWhitespace (c : Char) : Bool :=
  c = ' ' || c = '\t' || c = '\n' || c = '\r' ||
  c = Char.ofNat 11 || c = Char.ofNat 12 || c = Char.ofNat 160

/-- JavaScript `String.prototype.trim`: drop leading and trailing
whitespace. -/
def jsTrim (s : Str) : Str :=
  ((s.dropWhile jsWhitespace).reverse.dropWhile jsWhitespace).reverse

/-- JavaScript `String.prototype.toLowerCase`, character by character. -/
def lowerStr (s : Str) : Str := s.map Char.toLower

/-- JavaScript `haystack.includes(needle)`: substring containment test. -/
def jsIncludes (hay needle : Str) : Bool := decide (needle <:+: hay)

/-- One character of `escapeHtml`: the browser serializes a text node by
escaping `&`, `<`, `>` and the no-break space; other characters pass
through. This models `escapeHtml` of wiki.js, which assigns the string to
`textContent` of a `div` and reads back `innerHTML`. -/
def escChar (c : Char) : Str :=
  if c = '&' then "&amp;".toList
  else if c = '<' then "&lt;".toList
  else if c = '>' then "&gt;".toList
  else if c = Char.ofNat 160 then "&nbsp;".toList
  else [c]

/-- `escapeHtml(str)` of wiki.js. -/
def escapeHtml (s : Str) : Str := s.flatMap escChar

/- ================================================================
   Search engine (`buildSearchIndex`, `_runSearch`)
   ================================================================ -/

/-- One entry of `WIKI_CONFIG.searchIndex` (the `window.WIKI_SEARCH_PAGES`
records): `{ title, url, desc, tags }`, with `desc` and `tags` optional. -/
structure PageDescriptor where
  title : Str
  url   : Str
  desc  : Option Str
  tags  : Option (List Str)
deriving DecidableEq, Repr

/-- JavaScript `x || ''` applied to an optional string: an absent or empty
string yields the default (the empty string itself). -/
def jsOrEmpty (o : Option Str) : Str :=
  match o with
  | some s => s
  | none => []

/-- The searchable text of one descriptor, exactly as `_runSearch` builds
it: `p.title + ' ' + (p.desc || '') + ' ' + (p.tags || []).join(' ')`. -/
def searchText (p : PageDescriptor) : Str :=
  p.title ++ [' '] ++ jsOrEmpty p.desc ++ [' ']
    ++ List.intercalate [' '] (p.tags.getD [])

/-- The filter step of `_runSearch`:
`index.filter(p => (…).toLowerCase().includes(q))` with
`q = query.toLowerCase()`, before the result cap. -/
def searchFilter (index : List PageDescriptor) (query : Str) :
    List PageDescriptor :=
  index.filter fun p => jsIncludes (lowerStr (searchText p)) (lowerStr query)

/-- The matches of `_runSearch` after the result cap: `.slice(0, 10)`. -/
def searchMatches (index : List PageDescriptor) (query : Str) :
    List PageDescriptor :=
  (searchFilter index query).take 10

/-- The descriptors `_runSearch` renders as result rows: none when the
trimmed query is empty (the early `if (!query.trim())` return), the capped
matches otherwise. -/
def runSearchResults (index : List PageDescriptor) (query : Str) :
    List PageDescriptor :=
  if jsTrim query = [] then [] else searchMatches index query

/-- The placeholder markup `_runSearch` writes for an empty query. -/
def placeholderHtml : Str :=
  "<div class=\"search-empty\">Start typing to search…</div>".toList

/-- The markup `_runSearch` writes when no descriptor matches. -/
def noResultsHtml (query : Str) : Str :=
  "<div class=\"search-empty\">No results for \"<strong>".toList
    ++ escapeHtml query ++ "</strong>\".</div>".toList

/-- JavaScript truthiness of an optional string: present and non-empty. -/
def strTruthy (o : Option Str) : Bool :=
  match o with
  | some s => !s.isEmpty
  | none => false

/-- The markup of one rendered result row of `_runSearch` (template
whitespace elided): a `data-url` attribute and a title div, plus a desc
div when `m.desc` is truthy; `url`, `title` and `desc` each pass through
`escapeHtml`. -/
def resultItemHtml (m : PageDescriptor) : Str :=
  "<div class=\"search-result-item\" role=\"option\" tabindex=\"0\" data-url=\"".toList
    ++ escapeHtml m.url ++ "\">".toList
    ++ "<div class=\"search-result-title\">".toList
    ++ escapeHtml m.title ++ "</div>".toList
    ++ (match m.desc with
        | some d =>
          if d.isEmpty then []
          else "<div class=\"search-result-desc\">".toList
            ++ escapeHtml d ++ "</div>".toList
        | none => [])
    ++ "</div>".toList

/-- The full `innerHTML` that `_runSearch(query, resultsEl)` leaves in the
results element. -/
def runSearchHtml (index : List PageDescriptor) (query : Str) : Str :=
  if jsTrim query = [] then placeholderHtml
  else
    let ms := searchMatches index query
    if ms.isEmpty then noResultsHtml query
    else (ms.map resultItemHtml).flatten

example : runSearchResults [] "abc".toList = [] := by decide

example :
    runSearchResults
      [⟨"Algebra Basics".toList, "a.html".toList, none, some ["math".toList]⟩,
       ⟨"Roman History".toList, "b.html".toList, none, some ["history".toList]⟩]
      "hist".toList
    = [⟨"Roman History".toList, "b.html".toList, none, some ["history".toList]⟩] := by
  decide

example :
    runSearchResults
      [⟨"Algebra Basics".toList, "a.html".toList, none, some ["math".toList]⟩,
       ⟨"Roman History".toList, "b.html".toList, none, some ["history".toList]⟩]
      "MATH".toList
    = [⟨"Algebra Basics".toList, "a.html".toList, none, some ["math".toList]⟩] := by
  decide

/-- A sample catalog entry used by concrete witnesses. -/
def sampleDesc : PageDescriptor :=
  ⟨"Algebra Basics".toList, "a.html".toList, some "Intro".toList,
    some ["math".toList]⟩

/-- A one-entry sample catalog used by concrete witnesses. -/
def sampleIndex : List PageDescriptor := [sampleDesc]

/-- C1: for a query that is non-empty after trimming, a descriptor passes
the pre-cap filter of `_runSearch` exactly when the lower-cased query is a
substring of the lower-cased concatenation of its title, desc (empty if
absent) and tags joined by spaces (empty if absent); and every returned
descriptor passes that substring test. -/
theorem C1_search_match_characterization
    (index : List PageDescriptor) (query : Str) (h : jsTrim query ≠ [])
    (p : PageDescriptor) :
    (p ∈ searchFilter index query ↔
      p ∈ index ∧ lowerStr query <:+: lowerStr (searchText p)) ∧
    (p ∈ runSearchResults index query →
      lowerStr query <:+: lowerStr (searchText p)) := by
  constructor
  · rw [searchFilter, List.mem_filter]
    simp [jsIncludes]
  · intro hp
    rw [runSearchResults, if_neg h, searchMatches] at hp
    have hp' : p ∈ searchFilter index query := List.take_subset _ _ hp
    have hpred := (List.mem_filter.mp hp').2
    simpa [jsIncludes] using hpred

/-- Concrete instance of C1: the sample catalog with query "basics". -/
theorem C1_search_match_characterization_witness :
    (sampleDesc ∈ searchFilter sampleIndex "basics".toList ↔
      sampleDesc ∈ sampleIndex ∧
      lowerStr "basics".toList <:+: lowerStr (searchText sampleDesc)) ∧
    (sampleDesc ∈ runSearchResults sampleIndex "basics".toList →
      lowerStr "basics".toList <:+: lowerStr (searchText sampleDesc)) :=
  C1_search_match_characterization sampleIndex "basics".toList
    (by decide) sampleDesc

/-- C2 fails as stated: the query consisting of one space is a non-empty
string, yet the search returns zero results (the trimmed query is empty)
while one descriptor passes the substring test, so the returned count is
not min(10, number of matching descriptors). -/
theorem C2_result_count_counterexample :
    (runSearchResults sampleIndex [' ']).length = 0 ∧
    min 10 (searchFilter sampleIndex [' ']).length = 1 ∧
    (0 : Nat) ≠ 1 := by decide

/-- C2 amended: for every catalog and every query that is non-empty after
trimming, the returned result count is min(10, number of matching
descriptors), and the returned results are a sublist of the catalog
(catalog order preserved, no reordering). -/
theorem C2_result_count_and_order
    (index : List PageDescriptor) (query : Str) (h : jsTrim query ≠ []) :
    (runSearchResults index query).length
      = min 10 (searchFilter index query).length ∧
    (runSearchResults index query).Sublist index := by
  rw [runSearchResults, if_neg h, searchMatches]
  exact ⟨List.length_take 10 (searchFilter index query),
    ((searchFilter index query).take_sublist 10).trans
      (List.filter_sublist index)⟩

/-- Concrete instance of C2 (amended) on the sample catalog. -/
theorem C2_result_count_and_order_witness :
    (runSearchResults sampleIndex "math".toList).length
      = min 10 (searchFilter sampleIndex "math".toList).length ∧
    (runSearchResults sampleIndex "math".toList).Sublist sampleIndex :=
  C2_result_count_and_order sampleIndex "math".toList (by decide)

/-- C4: for every catalog and every query whose trimmed form is empty, the
search returns no results and renders the start-typing placeholder; in
particular it never returns the full catalog (when the catalog is
non-empty) and, being a total function, raises no error. -/
theorem C4_empty_query_placeholder
    (index : List PageDescriptor) (query : Str) (h : jsTrim query = []) :
    runSearchResults index query = [] ∧
    runSearchHtml index query = placeholderHtml ∧
    (index ≠ [] → runSearchResults index query ≠ index) := by
  refine ⟨by rw [runSearchResults, if_pos h],
    by rw [runSearchHtml, if_pos h], ?_⟩
  intro hne
  rw [runSearchResults, if_pos h]
  exact fun heq => hne heq.symm

/-- Concrete instance of C4: whitespace-only query on the sample
catalog. -/
theorem C4_empty_query_placeholder_witness :
    runSearchResults sampleIndex "  ".toList = [] ∧
    runSearchHtml sampleIndex "  ".toList = placeholderHtml ∧
    (sampleIndex ≠ [] → runSearchResults sampleIndex "  ".toList ≠ sampleIndex) :=
  C4_empty_query_placeholder sampleIndex "  ".toList (by decide)

/- ================================================================
   Decimal rendering of a natural number (JavaScript number-to-string),
   used by the template interpolations `'-' + i` and `toc-h` levels.
   ================================================================ -/

/-- One decimal digit character. -/
def digitChar (d : Nat) : Char :=
  if d = 0 then '0' else if d = 1 then '1' else if d = 2 then '2'
  else if d = 3 then '3' else if d = 4 then '4' else if d = 5 then '5'
  else if d = 6 then '6' else if d = 7 then '7' else if d = 8 then '8'
  else '9'

/-- Fuel-indexed decimal rendering; the fuel always exceeds the number of
division steps, so the out-of-fuel branch is never reached. -/
def natCharsAux : Nat → Nat → Str
  | 0, _ => []
  | fuel + 1, n =>
    if n < 10 then [digitChar n]
    else natCharsAux fuel (n / 10) ++ [digitChar (n % 10)]

/-- JavaScript number-to-string on a natural number. -/
def natChars (n : Nat) : Str := natCharsAux (n + 1) n

/-- Decimal read-back, inverse to `natChars`. -/
def natVal (s : Str) : Nat := s.foldl (fun a c => a * 10 + (c.toNat - 48)) 0

theorem toNat_digitChar (d : Nat) (h : d < 10) :
    (digitChar d).toNat = 48 + d := by
  interval_cases d <;> decide

theorem digitChar_ne_dash (d : Nat) : digitChar d ≠ '-' := by
  unfold digitChar
  split_ifs <;> decide

theorem natVal_append_digit (xs : Str) (c : Char) :
    natVal (xs ++ [c]) = natVal xs * 10 + (c.toNat - 48) := by
  simp [natVal, List.foldl_append]

theorem natVal_natCharsAux (fuel n : Nat) (h : n < fuel) :
    natVal (natCharsAux fuel n) = n := by
  induction fuel generalizing n with
  | zero => omega
  | succ fuel ih =>
    rw [natCharsAux]
    split
    · next h10 =>
      have := toNat_digitChar n h10
      simp [natVal, this]
    · next h10 =>
      have h1 : n / 10 < n := Nat.div_lt_self (by omega) (by omega)
      have hdiv : n / 10 < fuel := by omega
      rw [natVal_append_digit, ih (n / 10) hdiv,
        toNat_digitChar (n % 10) (Nat.mod_lt n (by omega))]
      omega

theorem natVal_natChars (n : Nat) : natVal (natChars n) = n :=
  natVal_natCharsAux (n + 1) n (by omega)

theorem natChars_injective (m n : Nat) (h : natChars m = natChars n) :
    m = n := by
  have hv := congrArg natVal h
  rwa [natVal_natChars, natVal_natChars] at hv

theorem dash_notMem_natCharsAux (fuel n : Nat) :
    '-' ∉ natCharsAux fuel n := by
  induction fuel generalizing n with
  | zero => simp [natCharsAux]
  | succ fuel ih =>
    rw [natCharsAux]
    split
    · intro hmem
      simp at hmem
      exact digitChar_ne_dash n hmem.symm
    · intro hmem
      rcases List.mem_append.mp hmem with h1 | h2
      · exact ih _ h1
      · simp at h2
        exact digitChar_ne_dash _ h2.symm

theorem dash_notMem_natChars (n : Nat) : '-' ∉ natChars n :=
  dash_notMem_natCharsAux (n + 1) n

/- ================================================================
   C3: querying a descriptor title verbatim (case-varied)
   ================================================================ -/

/-- A catalog of eleven descriptors, all titled "a", with distinct urls:
used to show that the result cap can exclude a descriptor whose exact
title is the query. -/
def capCatalog : List PageDescriptor :=
  (List.range 11).map fun i => ⟨['a'], natChars i, none, none⟩

/-- The eleventh entry of `capCatalog`. -/
def capVictim : PageDescriptor := ⟨['a'], natChars 10, none, none⟩

/-- A descriptor whose title is a single space. -/
def spaceTitleDesc : PageDescriptor := ⟨[' '], "w.html".toList, none, none⟩

/-- C3 fails as stated, in two ways. First, with eleven matching
descriptors the ten-result cap drops the eleventh even though the query
equals its title verbatim. Second, a descriptor whose title is whitespace
only is never returned for the query equal to that title, because the
trimmed query is empty. -/
theorem C3_title_query_counterexample :
    (capVictim ∈ capCatalog ∧
      lowerStr ['a'] = lowerStr capVictim.title ∧
      capVictim ∉ runSearchResults capCatalog ['a']) ∧
    (spaceTitleDesc ∈ [spaceTitleDesc] ∧
      lowerStr [' '] = lowerStr spaceTitleDesc.title ∧
      spaceTitleDesc ∉ runSearchResults [spaceTitleDesc] [' ']) := by
  decide

/-- C3 amended: for every catalog, every descriptor in it, and every case
variation of its title used as the query, if the query is non-empty after
trimming then the descriptor passes the substring match test and is among
the pre-cap matches; and whenever at most ten descriptors match, it is in
the returned result set. -/
theorem C3_title_query_returns_descriptor
    (index : List PageDescriptor) (d : PageDescriptor) (q : Str)
    (hmem : d ∈ index) (hcase : lowerStr q = lowerStr d.title)
    (htrim : jsTrim q ≠ []) :
    lowerStr q <:+: lowerStr (searchText d) ∧
    d ∈ searchFilter index q ∧
    ((searchFilter index q).length ≤ 10 → d ∈ runSearchResults index q) := by
  have hinf : lowerStr q <:+: lowerStr (searchText d) := by
    refine ⟨[], lowerStr ([' '] ++ jsOrEmpty d.desc ++ [' ']
      ++ List.intercalate [' '] (d.tags.getD [])), ?_⟩
    have hcase' : List.map Char.toLower q = List.map Char.toLower d.title :=
      hcase
    simp [searchText, lowerStr, hcase']
  have hfil : d ∈ searchFilter index q := by
    rw [searchFilter, List.mem_filter]
    exact ⟨hmem, by simpa [jsIncludes] using hinf⟩
  refine ⟨hinf, hfil, fun hlen => ?_⟩
  rw [runSearchResults, if_neg htrim, searchMatches,
    List.take_of_length_le hlen]
  exact hfil

/-- Concrete instance of C3 (amended): the sample catalog queried with the
upper-cased title of its descriptor. -/
theorem C3_title_query_returns_descriptor_witness :
    lowerStr "ALGEBRA BASICS".toList <:+: lowerStr (searchText sampleDesc) ∧
    sampleDesc ∈ searchFilter sampleIndex "ALGEBRA BASICS".toList ∧
    ((searchFilter sampleIndex "ALGEBRA BASICS".toList).length ≤ 10 →
      sampleDesc ∈ runSearchResults sampleIndex "ALGEBRA BASICS".toList) :=
  C3_title_query_returns_descriptor sampleIndex sampleDesc
    "ALGEBRA BASICS".toList (by decide) (by decide) (by decide)

/- ================================================================
   Table-of-contents builder (`slugify`, `buildTOC`)
   ================================================================ -/

/-- JavaScript `\w`: ASCII letters, digits, underscore. -/
def isWordChar (c : Char) : Bool := c.isAlphanum || c = '_'

/-- The character class `[\s_-]` of the slug separator run. -/
def sepChar (c : Char) : Bool := jsWhitespace c || c = '_' || c = '-'

/-- `replace(/[\s_-]+/g, '-')`: collapse each run of separator characters
to a single dash. The boolean flag records whether the scan is inside a
run. -/
def collapseAux : Bool → Str → Str
  | _, [] => []
  | inRun, c :: rest =>
    if sepChar c then
      if inRun then collapseAux true rest
      else '-' :: collapseAux true rest
    else c :: collapseAux false rest

/-- `slugify(text)` of wiki.js: lower-case, drop characters outside
`[\w\s-]`, collapse separator runs to single dashes, trim leading and
trailing dashes. -/
def slugify (text : Str) : Str :=
  let s1 := text.map Char.toLower
  let s2 := s1.filter fun c => isWordChar c || jsWhitespace c || c = '-'
  let s3 := collapseAux false s2
  ((s3.dropWhile (· == '-')).reverse.dropWhile (· == '-')).reverse

/-- The id `buildTOC` generates for the heading at index `i`:
`slugify(h.textContent) + '-' + i`. -/
def genId (slug : Str) (i : Nat) : Str := slug ++ '-' :: natChars i

/-- The maximal dash-free run at the end of a string, read off a generated
id to recover its decimal index suffix. -/
def idxSuffix (s : Str) : Str := (s.reverse.takeWhile (· != '-')).reverse

theorem takeWhile_ne_dash_append (xs rest : Str) (hx : '-' ∉ xs) :
    (xs ++ '-' :: rest).takeWhile (· != '-') = xs := by
  induction xs with
  | nil => simp [List.takeWhile_cons]
  | cons a as ih =>
    rw [List.mem_cons, not_or] at hx
    have ha : (a != '-') = true := by
      simp only [bne_iff_ne, ne_eq]
      exact fun h => hx.1 h.symm
    simp only [List.cons_append, List.takeWhile_cons, ha, if_pos]
    rw [ih hx.2]

theorem idxSuffix_genId (slug : Str) (i : Nat) :
    idxSuffix (genId slug i) = natChars i := by
  rw [idxSuffix, genId, List.reverse_append, List.reverse_cons,
    List.append_assoc, List.singleton_append,
    takeWhile_ne_dash_append _ _ (by
      intro hmem
      exact dash_notMem_natChars i (List.mem_reverse.mp hmem)),
    List.reverse_reverse]

theorem genId_index_inj (s1 s2 : Str) (i j : Nat)
    (h : genId s1 i = genId s2 j) : i = j := by
  have hs := congrArg idxSuffix h
  rw [idxSuffix_genId, idxSuffix_genId] at hs
  exact natChars_injective i j hs

/-- Scan for the first `]` before a line terminator: the non-greedy match
`\[.*?\]` succeeds only then (`.` does not cross line terminators).
Returns the remainder after the `]`. -/
def findClose : Str → Option Str
  | [] => none
  | c :: rest =>
    if c = ']' then some rest
    else if c = '\n' || c = '\r' then none
    else findClose rest

/-- Fuel-indexed body of `replace(/\[.*?\]/g, '')`: on `[`, drop through
the matching `]` when one is reachable, otherwise keep the `[` and scan
on. The fuel always exceeds the number of scan steps. -/
def stripBracketsAux : Nat → Str → Str
  | 0, s => s
  | fuel + 1, s =>
    match s with
    | [] => []
    | c :: rest =>
      if c = '[' then
        match findClose rest with
        | some rest' => stripBracketsAux fuel rest'
        | none => c :: stripBracketsAux fuel rest
      else c :: stripBracketsAux fuel rest

/-- `text.replace(/\[.*?\]/g, '')`, applied to a heading text for the
display text of its TOC entry. -/
def stripBrackets (s : Str) : Str := stripBracketsAux (s.length + 1) s

example : stripBrackets "Intro [1] text".toList = "Intro  text".toList := by
  decide

/-- A heading element of levels 2-4, as `buildTOC` collects them: its
pre-existing `id` attribute (if any), its `textContent`, and its level. -/
structure Heading where
  idAttr : Option Str
  text   : Str
  level  : Nat
deriving DecidableEq, Repr

/-- One derived TOC entry: anchor id, display text, heading level. -/
structure TOCItem where
  id    : Str
  text  : Str
  level : Nat
deriving DecidableEq, Repr

/-- JavaScript falsiness of the `id` attribute (`if (!h.id)`): absent or
empty. -/
def idFalsy (h : Heading) : Bool := (jsOrEmpty h.idAttr).isEmpty

/-- The anchor a heading carries after `buildTOC` processed it at index
`i`: a heading with a falsy id receives `slugify(h.textContent) + '-' + i`,
any other keeps its pre-existing id. -/
def assignedId (h : Heading) (i : Nat) : Str :=
  if idFalsy h then genId (slugify h.text) i else jsOrEmpty h.idAttr

/-- The TOC entry for heading `h` at index `i`: the assigned id, the text
with bracketed citation markers stripped and trimmed, and the level. -/
def mkTocItem (i : Nat) (h : Heading) : TOCItem :=
  { id := assignedId h i, text := jsTrim (stripBrackets h.text),
    level := h.level }

/-- `headings.map((h, i) => …)` with the index threaded explicitly. -/
def tocItemsFrom : Nat → List Heading → List TOCItem
  | _, [] => []
  | i, h :: hs => mkTocItem i h :: tocItemsFrom (i + 1) hs

/-- The entry sequence `buildTOC` derives from the collected headings. -/
def tocItems (hs : List Heading) : List TOCItem := tocItemsFrom 0 hs

/-- `buildTOC` of wiki.js, reduced to its data content: given the heading
elements of levels 2-4 in document order, return early (no TOC at all)
when fewer than 3 are found, otherwise produce the entry sequence shared
by the floating TOC and the side-panel TOC. -/
def buildTOC (hs : List Heading) : Option (List TOCItem) :=
  if hs.length < 3 then none else some (tocItems hs)

/-- One row of the side-panel TOC (`_tocSidebarItems`). -/
def tocSidebarRow (it : TOCItem) : Str :=
  "<li><a href=\"#".toList ++ it.id ++ "\" class=\"toc-h".toList
    ++ natChars it.level ++ "\">".toList ++ escapeHtml it.text
    ++ "</a></li>".toList

/-- `_tocSidebarItems(items)` before joining: one `li` row per entry. -/
def tocSidebarRows (items : List TOCItem) : List Str :=
  items.map tocSidebarRow

theorem length_tocItemsFrom (k : Nat) (hs : List Heading) :
    (tocItemsFrom k hs).length = hs.length := by
  induction hs generalizing k with
  | nil => rfl
  | cons h hs ih => simp [tocItemsFrom, ih]

theorem tocItemsFrom_getElem? (hs : List Heading) (k i : Nat) :
    (tocItemsFrom k hs)[i]? = (hs[i]?).map (mkTocItem (k + i)) := by
  induction hs generalizing k i with
  | nil => simp [tocItemsFrom]
  | cons h hs ih =>
    cases i with
    | zero => simp [tocItemsFrom]
    | succ i =>
      have harith : k + 1 + i = k + (i + 1) := by omega
      simp [tocItemsFrom, ih (k + 1) i, harith]

/- ================================================================
   Nested TOC construction (`_buildNestedTOC`)
   ================================================================ -/

/-- The markup fragments `_buildNestedTOC` appends: a list opening
`<ol>`, a list closing `</ol>`, or one `li` entry. -/
inductive TocTok
  | op
  | cl
  | li (item : TOCItem)
deriving DecidableEq, Repr

/-- `'<ol>'.repeat(k)` and friends: `k` copies of a fragment. -/
def repeatStr (k : Nat) (s : Str) : Str := (List.replicate k s).flatten

/-- One `li` fragment of `_buildNestedTOC`. -/
def nestedLiHtml (it : TOCItem) : Str :=
  "<li class=\"toc-h".toList ++ natChars it.level
    ++ "\"><a href=\"#".toList ++ it.id ++ "\">".toList
    ++ escapeHtml it.text ++ "</a></li>".toList

/-- The rendered fragment of one token. -/
def tokHtml : TocTok → Str
  | .op => "<ol>".toList
  | .cl => "</ol>".toList
  | .li it => nestedLiHtml it

/-- The walk of `_buildNestedTOC` after the initial `<ol>`, as the string
it appends: compare each entry level with the previous one (initially 2),
opening `level - prevLevel` list levels when deeper and closing
`prevLevel - level` when shallower, then append the entry; at the end
close `max(prevLevel - 1, 1)` remaining levels. -/
def nestedTOCAux : List TOCItem → Nat → Str
  | [], prevLevel => repeatStr (max (prevLevel - 1) 1) "</ol>".toList
  | it :: rest, prevLevel =>
    (if prevLevel < it.level then
      repeatStr (it.level - prevLevel) "<ol>".toList
     else if it.level < prevLevel then
      repeatStr (prevLevel - it.level) "</ol>".toList
     else [])
    ++ nestedLiHtml it ++ nestedTOCAux rest it.level

/-- `_buildNestedTOC(items)` of wiki.js: the initial `<ol>` followed by
the walk. -/
def buildNestedTOC (items : List TOCItem) : Str :=
  "<ol>".toList ++ nestedTOCAux items 2

/-- The same walk at the level of whole fragments, used to count openings
and closings of the produced markup. -/
def tocToksAux : List TOCItem → Nat → List TocTok
  | [], prevLevel => List.replicate (max (prevLevel - 1) 1) .cl
  | it :: rest, prevLevel =>
    (if prevLevel < it.level then List.replicate (it.level - prevLevel) .op
     else if it.level < prevLevel then
      List.replicate (prevLevel - it.level) .cl
     else [])
    ++ .li it :: tocToksAux rest it.level

/-- The token sequence of the whole construction, initial `<ol>`
included. -/
def tocToks (items : List TOCItem) : List TocTok := .op :: tocToksAux items 2

/-- Recognizer for entry tokens. -/
def isLiTok : TocTok → Bool
  | .li _ => true
  | _ => false

theorem flatMap_replicate_tok (k : Nat) (t : TocTok) :
    (List.replicate k t).flatMap tokHtml = repeatStr k (tokHtml t) := by
  induction k with
  | zero => rfl
  | succ k ih =>
    simp [List.replicate_succ, List.flatMap_cons, repeatStr, ih]

theorem nestedTOCAux_eq_tokens (items : List TOCItem) (prevLevel : Nat) :
    nestedTOCAux items prevLevel
      = (tocToksAux items prevLevel).flatMap tokHtml := by
  induction items generalizing prevLevel with
  | nil => simp [nestedTOCAux, tocToksAux, flatMap_replicate_tok, tokHtml]
  | cons it rest ih =>
    rw [nestedTOCAux, tocToksAux]
    rw [List.flatMap_append, List.flatMap_cons]
    rw [ih it.level]
    split_ifs <;> simp [flatMap_replicate_tok, tokHtml]

theorem countP_replicate_tok (p : TocTok → Bool) (n : Nat) (t : TocTok)
    (h : p t = false) : (List.replicate n t).countP p = 0 := by
  induction n with
  | zero => rfl
  | succ n ih => simp [List.replicate_succ, List.countP_cons, h, ih]

theorem countLi_tocToksAux (items : List TOCItem) (prevLevel : Nat) :
    (tocToksAux items prevLevel).countP isLiTok = items.length := by
  induction items generalizing prevLevel with
  | nil =>
    rw [tocToksAux]
    exact countP_replicate_tok _ _ _ rfl
  | cons it rest ih =>
    rw [tocToksAux, List.countP_append, List.countP_cons, ih it.level]
    have hli : isLiTok (TocTok.li it) = true := rfl
    split_ifs <;>
      simp [countP_replicate_tok isLiTok _ TocTok.op rfl,
        countP_replicate_tok isLiTok _ TocTok.cl rfl, hli]

theorem count_cl_replicate_op (n : Nat) :
    (List.replicate n TocTok.op).count TocTok.cl = 0 := by
  induction n with
  | zero => rfl
  | succ n ih => simp +decide [List.replicate_succ, List.count_cons, ih]

theorem count_op_replicate_cl (n : Nat) :
    (List.replicate n TocTok.cl).count TocTok.op = 0 := by
  induction n with
  | zero => rfl
  | succ n ih => simp +decide [List.replicate_succ, List.count_cons, ih]

theorem count_cl_li_cons (it : TOCItem) (l : List TocTok) :
    (TocTok.li it :: l).count TocTok.cl = l.count TocTok.cl := by
  simp [List.count_cons]

theorem count_op_li_cons (it : TOCItem) (l : List TocTok) :
    (TocTok.li it :: l).count TocTok.op = l.count TocTok.op := by
  simp [List.count_cons]

theorem tocToksAux_count_balance (items : List TOCItem) (prevLevel : Nat)
    (hp : 2 ≤ prevLevel) (hl : ∀ it ∈ items, 2 ≤ it.level) :
    (tocToksAux items prevLevel).count TocTok.cl
      = (tocToksAux items prevLevel).count TocTok.op + (prevLevel - 1) := by
  induction items generalizing prevLevel with
  | nil =>
    rw [tocToksAux, List.count_replicate_self, count_op_replicate_cl]
    omega
  | cons it rest ih =>
    have h2 : 2 ≤ it.level := hl it (List.mem_cons_self it rest)
    have hrest : ∀ x ∈ rest, 2 ≤ x.level := fun x hx =>
      hl x (List.mem_cons_of_mem it hx)
    rw [tocToksAux]
    split_ifs with hlt hgt
    · rw [List.count_append, List.count_append, count_cl_li_cons,
        count_op_li_cons, count_cl_replicate_op, List.count_replicate_self,
        ih it.level h2 hrest]
      omega
    · rw [List.count_append, List.count_append, count_cl_li_cons,
        count_op_li_cons, List.count_replicate_self, count_op_replicate_cl,
        ih it.level h2 hrest]
      omega
    · rw [List.nil_append, count_cl_li_cons, count_op_li_cons,
        ih it.level h2 hrest]
      omega

/-- C5: given fewer than 3 collected headings, `buildTOC` renders no TOC
at all; given 3 or more, it produces one entry per heading, the side-panel
rendering has one row per heading, the nested rendering has one `li`
token per heading, and the entries follow document order (the entry at
each index is derived from the heading at the same index). -/
theorem C5_toc_threshold_and_count (hs : List Heading) :
    (hs.length < 3 → buildTOC hs = none) ∧
    (3 ≤ hs.length →
      buildTOC hs = some (tocItems hs) ∧
      (tocItems hs).length = hs.length ∧
      (tocSidebarRows (tocItems hs)).length = hs.length ∧
      (tocToks (tocItems hs)).countP isLiTok = hs.length ∧
      ∀ i : Nat, (tocItems hs)[i]? = (hs[i]?).map (mkTocItem i)) := by
  constructor
  · intro h
    rw [buildTOC, if_pos h]
  · intro h
    refine ⟨by rw [buildTOC, if_neg (by omega)], ?_, ?_, ?_, ?_⟩
    · exact length_tocItemsFrom 0 hs
    · rw [tocSidebarRows, List.length_map]
      exact length_tocItemsFrom 0 hs
    · rw [tocToks, List.countP_cons, countLi_tocToksAux]
      simp [isLiTok, tocItems, length_tocItemsFrom]
    · intro i
      simpa using tocItemsFrom_getElem? hs 0 i

/-- A concrete three-heading document for the C5 witness. -/
def c5Headings : List Heading :=
  [⟨none, "Alpha".toList, 2⟩, ⟨none, "Beta".toList, 3⟩,
   ⟨some "gamma".toList, "Gamma".toList, 2⟩]

/-- Concrete instance of C5 at a three-heading document. -/
theorem C5_toc_threshold_and_count_witness :
    buildTOC c5Headings = some (tocItems c5Headings) ∧
    (tocItems c5Headings).length = c5Headings.length ∧
    (tocSidebarRows (tocItems c5Headings)).length = c5Headings.length ∧
    (tocToks (tocItems c5Headings)).countP isLiTok = c5Headings.length ∧
    (tocItems c5Headings)[0]? = (c5Headings[0]?).map (mkTocItem 0) := by
  have h := (C5_toc_threshold_and_count c5Headings).2 (by decide)
  exact ⟨h.1, h.2.1, h.2.2.1, h.2.2.2.1, h.2.2.2.2 0⟩

/-- The headings of the C6 counterexample: the first carries the
pre-existing id `x-1`, the second has no id and slugifies to `x`, so its
generated anchor `x-1` collides with the first one. -/
def c6Headings : List Heading :=
  [⟨some "x-1".toList, ['t'], 2⟩, ⟨none, ['x'], 2⟩, ⟨none, ['y'], 3⟩]

/-- C6 fails as stated: two collected headings can end up with the same
anchor id when a pre-existing id equals the slug-plus-index anchor
generated for another heading. -/
theorem C6_anchor_collision_counterexample :
    buildTOC c6Headings = some (tocItems c6Headings) ∧
    (tocItems c6Headings).map TOCItem.id
      = ["x-1".toList, "x-1".toList, "y-2".toList] := by
  decide

/-- C6 amended: every heading with a falsy (absent or empty) id receives
the deterministic anchor `slugify(text) + '-' + index`, and any two such
headings receive distinct anchors, even with identical text; a heading
that already carries an id keeps it, and such a pre-existing id may
coincide with a generated one. -/
theorem C6_generated_anchor_uniqueness (hs : List Heading) (i j : Nat)
    (hi : i < hs.length) (hj : j < hs.length) (hij : i ≠ j)
    (hfi : idFalsy hs[i] = true) (hfj : idFalsy hs[j] = true) :
    (tocItems hs)[i]?.map TOCItem.id
      = some (genId (slugify hs[i].text) i) ∧
    (tocItems hs)[i]?.map TOCItem.id ≠ (tocItems hs)[j]?.map TOCItem.id := by
  have hgi : (tocItems hs)[i]?.map TOCItem.id
      = some (genId (slugify hs[i].text) i) := by
    rw [tocItems, tocItemsFrom_getElem? hs 0 i, List.getElem?_eq_getElem hi]
    simp [mkTocItem, assignedId, hfi]
  have hgj : (tocItems hs)[j]?.map TOCItem.id
      = some (genId (slugify hs[j].text) j) := by
    rw [tocItems, tocItemsFrom_getElem? hs 0 j, List.getElem?_eq_getElem hj]
    simp [mkTocItem, assignedId, hfj]
  refine ⟨hgi, ?_⟩
  rw [hgi, hgj]
  intro hsome
  exact hij (genId_index_inj _ _ _ _ (Option.some.inj hsome))

/-- Three headings without ids, two of them with identical text, for the
C6 witness. -/
def c6IdlessHeadings : List Heading :=
  [⟨none, ['x'], 2⟩, ⟨none, ['x'], 2⟩, ⟨none, ['z'], 2⟩]

/-- Concrete instance of C6 (amended): two identical-text headings without
ids receive distinct generated anchors. -/
theorem C6_generated_anchor_uniqueness_witness :
    (tocItems c6IdlessHeadings)[0]?.map TOCItem.id
      = some (genId (slugify c6IdlessHeadings[0].text) 0) ∧
    (tocItems c6IdlessHeadings)[0]?.map TOCItem.id
      ≠ (tocItems c6IdlessHeadings)[1]?.map TOCItem.id :=
  C6_generated_anchor_uniqueness c6IdlessHeadings 0 1 (by decide) (by decide)
    (by decide) (by decide) (by decide)

/-- C7: for entries whose levels lie in 2-4, the markup produced by
`_buildNestedTOC` is balanced: the list levels opened (the initial `ol`
plus those opened by the walk) equal the list levels closed (those closed
by the walk plus the final close-out), and the produced string is exactly
the rendering of that token sequence. -/
theorem C7_nested_toc_balanced (items : List TOCItem)
    (hl : ∀ it ∈ items, it.level = 2 ∨ it.level = 3 ∨ it.level = 4) :
    (tocToks items).count TocTok.op = (tocToks items).count TocTok.cl ∧
    buildNestedTOC items = (tocToks items).flatMap tokHtml := by
  have hl2 : ∀ it ∈ items, 2 ≤ it.level := fun it hit => by
    rcases hl it hit with h | h | h <;> omega
  constructor
  · have hbal := tocToksAux_count_balance items 2 (by omega) hl2
    rw [tocToks, List.count_cons, List.count_cons, hbal]
    simp +decide
  · rw [buildNestedTOC, tocToks, List.flatMap_cons, nestedTOCAux_eq_tokens]
    rfl

/-- Concrete entries with a level jump (2 then 4 then 3) for the C7
witness. -/
def c7Items : List TOCItem :=
  [⟨"a".toList, "A".toList, 2⟩, ⟨"b".toList, "B".toList, 4⟩,
   ⟨"c".toList, "C".toList, 3⟩]

/-- Concrete instance of C7 at entries with a level jump. -/
theorem C7_nested_toc_balanced_witness :
    (tocToks c7Items).count TocTok.op = (tocToks c7Items).count TocTok.cl ∧
    buildNestedTOC c7Items = (tocToks c7Items).flatMap tokHtml :=
  C7_nested_toc_balanced c7Items (by decide)

/- ================================================================
   Layout bootstrap (`buildLayout`)
   ================================================================ -/

/-- The document state `buildLayout` reads and writes, counted at the
level of the elements it can create: the number of elements with ids
`wiki-header`, `wiki-footer` and `wiki-layout`, and whether a
`wiki-content` element exists. -/
structure WikiDoc where
  headers : Nat
  footers : Nat
  layouts : Nat
  hasContent : Bool
deriving DecidableEq, Repr

/-- `buildLayout()` of wiki.js: a header is inserted only when
`#wiki-header` is missing, a footer only when `#wiki-footer` is missing,
and the three-column layout wrapper only when `#wiki-layout` is missing
and `#wiki-content` exists (without content that step returns early and
creates nothing). An element that already exists is left untouched. -/
def buildLayout (d : WikiDoc) : WikiDoc :=
  { headers := if d.headers = 0 then 1 else d.headers,
    footers := if d.footers = 0 then 1 else d.footers,
    layouts := if d.layouts = 0 ∧ d.hasContent = true then 1 else d.layouts,
    hasContent := d.hasContent }

/-- C8: `buildLayout` is idempotent on every document (the second
invocation is a no-op), and on a document with a content element and at
most one pre-existing header, footer and layout wrapper, invoking it
twice leaves exactly one of each. -/
theorem C8_buildLayout_idempotent (d : WikiDoc) :
    buildLayout (buildLayout d) = buildLayout d ∧
    (d.hasContent = true → d.headers ≤ 1 → d.footers ≤ 1 → d.layouts ≤ 1 →
      (buildLayout (buildLayout d)).headers = 1 ∧
      (buildLayout (buildLayout d)).footers = 1 ∧
      (buildLayout (buildLayout d)).layouts = 1) := by
  rcases d with ⟨h, f, l, c⟩
  constructor
  · simp [buildLayout]
    split_ifs <;> simp_all
  · intro hc h1 f1 l1
    dsimp only at hc h1 f1 l1
    subst hc
    simp [buildLayout]
    split_ifs <;> omega

/-- Concrete instance of C8: a bare document with content and no chrome. -/
theorem C8_buildLayout_idempotent_witness :
    buildLayout (buildLayout ⟨0, 0, 0, true⟩) = buildLayout ⟨0, 0, 0, true⟩ ∧
    (buildLayout (buildLayout ⟨0, 0, 0, true⟩)).headers = 1 ∧
    (buildLayout (buildLayout ⟨0, 0, 0, true⟩)).footers = 1 ∧
    (buildLayout (buildLayout ⟨0, 0, 0, true⟩)).layouts = 1 :=
  ⟨(C8_buildLayout_idempotent ⟨0, 0, 0, true⟩).1,
   (C8_buildLayout_idempotent ⟨0, 0, 0, true⟩).2 rfl (by decide) (by decide)
     (by decide)⟩

/- ================================================================
   Desmos embed initialization (`initDesmosEmbeds`, `wikiInitAllDesmos`)
   ================================================================ -/

/-- One `.wiki-desmos[data-exprs]` container: its `data-exprs` attribute
value, its optional `data-opts` attribute, and whether it holds an
`iframe` child. -/
structure DesmosContainer where
  exprsAttr : Str
  optsAttr  : Option Str
  hasIframe : Bool
deriving DecidableEq, Repr

/-- JavaScript `container.dataset.exprs || '[]'`. -/
def exprsOrDefault (c : DesmosContainer) : Str :=
  if c.exprsAttr.isEmpty then "[]".toList else c.exprsAttr

/-- JavaScript `container.dataset.opts || '\x7b\x7d'` (the default is the
two-character empty-object literal). -/
def optsOrDefault (c : DesmosContainer) : Str :=
  match c.optsAttr with
  | some s => if s.isEmpty then "\x7b\x7d".toList else s
  | none => "\x7b\x7d".toList

/-- What happened to one container during embed initialization. -/
inductive EmbedOutcome
  | skippedNoIframe
  | warned (msg : Str)
  | initialized (exprCount : Nat)
deriving DecidableEq, Repr

/-- One iteration of the `forEach` body of `initDesmosEmbeds`: a container
without an `iframe` is skipped; inside `try`, the two data attributes are
parsed and the calculator initialized with the parsed expressions; the
`catch` turns a parse error into a logged warning for this container
alone. The JSON parser is the platform collaborator, passed in as
`parseExprs` and `parseOpts`. -/
def desmosProcessOne (parseExprs : Str → Except Str (List Str))
    (parseOpts : Str → Except Str Unit) (c : DesmosContainer) :
    EmbedOutcome :=
  if c.hasIframe = false then .skippedNoIframe
  else
    match parseExprs (exprsOrDefault c) with
    | .error e => .warned e
    | .ok exprs =>
      match parseOpts (optsOrDefault c) with
      | .error e => .warned e
      | .ok _ => .initialized exprs.length

/-- `initDesmosEmbeds()` of wiki.js over the matched containers, with the
Desmos library present: the `forEach` continues past a caught error. -/
def initDesmosEmbeds (parseExprs : Str → Except Str (List Str))
    (parseOpts : Str → Except Str Unit) :
    List DesmosContainer → List EmbedOutcome
  | [] => []
  | c :: cs => desmosProcessOne parseExprs parseOpts c
      :: initDesmosEmbeds parseExprs parseOpts cs

/-- `wikiInitAllDesmos()` of wiki.js over the matched containers, with the
Desmos library present: its `forEach` body has no `try`/`catch`, so a
parse failure raises out of the iteration; the outcomes of the containers
processed before the failure are returned together with the error. -/
def wikiInitAllDesmos (parseExprs : Str → Except Str (List Str))
    (parseOpts : Str → Except Str Unit) :
    List DesmosContainer → List EmbedOutcome × Option Str
  | [] => ([], none)
  | c :: cs =>
    match parseExprs (exprsOrDefault c) with
    | .error e => ([], some e)
    | .ok exprs =>
      match parseOpts (optsOrDefault c) with
      | .error e => ([], some e)
      | .ok _ =>
        let rest := wikiInitAllDesmos parseExprs parseOpts cs
        (.initialized exprs.length :: rest.1, rest.2)

/-- A stand-in JSON parser accepting only the default empty array. -/
def toyParseExprs (s : Str) : Except Str (List Str) :=
  if s = "[]".toList then .ok [] else .error "Desmos embed error".toList

/-- A stand-in JSON parser accepting only the default empty object. -/
def toyParseOpts (s : Str) : Except Str Unit :=
  if s = "\x7b\x7d".toList then .ok () else .error "bad opts".toList

/-- A container whose `data-exprs` attribute is unparsable. -/
def badEmbed : DesmosContainer := ⟨"bogus".toList, none, true⟩

/-- A container whose `data-exprs` attribute parses. -/
def goodEmbed : DesmosContainer := ⟨"[]".toList, none, true⟩

/-- C9 fails as stated: `initDesmosEmbeds` does contain the failure (the
bad embed is warned, the good one after it is initialized), but on the
`wikiInitAllDesmos` code path the same unparsable embed raises and the
good embed after it is never processed — the containment does not hold on
every code path that initializes graph embeds. -/
theorem C9_error_containment_counterexample :
    initDesmosEmbeds toyParseExprs toyParseOpts [badEmbed, goodEmbed]
      = [.warned "Desmos embed error".toList, .initialized 0] ∧
    wikiInitAllDesmos toyParseExprs toyParseOpts [badEmbed, goodEmbed]
      = ([], some "Desmos embed error".toList) := by
  decide

/-- C9 amended: on the `initDesmosEmbeds` code path the error containment
holds — each container's outcome depends only on that container (the
whole run is the per-container map, so every other embed is processed
unaffected), and a parse failure on a container with an `iframe` yields a
logged warning for that container alone. On the `wikiInitAllDesmos` code
path an unparsable embed instead aborts the iteration. -/
theorem C9_initDesmosEmbeds_error_containment
    (parseExprs : Str → Except Str (List Str))
    (parseOpts : Str → Except Str Unit) (cs : List DesmosContainer) :
    initDesmosEmbeds parseExprs parseOpts cs
      = cs.map (desmosProcessOne parseExprs parseOpts) ∧
    ∀ c e, c.hasIframe = true → parseExprs (exprsOrDefault c) = .error e →
      desmosProcessOne parseExprs parseOpts c = .warned e := by
  constructor
  · induction cs with
    | nil => rfl
    | cons c cs ih => simp [initDesmosEmbeds, ih]
  · intro c e hif hp
    rw [desmosProcessOne, if_neg (by simp [hif]), hp]

/-- Concrete instance of C9 (amended): the toy parser on a bad embed
followed by a good one. -/
theorem C9_initDesmosEmbeds_error_containment_witness :
    initDesmosEmbeds toyParseExprs toyParseOpts [badEmbed, goodEmbed]
      = [badEmbed, goodEmbed].map (desmosProcessOne toyParseExprs toyParseOpts) ∧
    desmosProcessOne toyParseExprs toyParseOpts badEmbed
      = .warned "Desmos embed error".toList :=
  ⟨(C9_initDesmosEmbeds_error_containment toyParseExprs toyParseOpts
      [badEmbed, goodEmbed]).1,
   (C9_initDesmosEmbeds_error_containment toyParseExprs toyParseOpts
      [badEmbed, goodEmbed]).2 badEmbed "Desmos embed error".toList
      rfl rfl⟩

/- ================================================================
   C10: HTML escaping of interpolated search-result fields
   ================================================================ -/

theorem count_lt_escapeHtml (s : Str) : (escapeHtml s).count '<' = 0 := by
  induction s with
  | nil => rfl
  | cons c rest ih =>
    rw [escapeHtml, List.flatMap_cons, List.count_append]
    rw [escapeHtml] at ih
    rw [ih, escChar]
    split_ifs with h1 h2 h3 h4 <;>
      simp_all [List.count_cons, List.count_nil]

theorem count_gt_escapeHtml (s : Str) : (escapeHtml s).count '>' = 0 := by
  induction s with
  | nil => rfl
  | cons c rest ih =>
    rw [escapeHtml, List.flatMap_cons, List.count_append]
    rw [escapeHtml] at ih
    rw [ih, escChar]
    split_ifs with h1 h2 h3 h4 <;>
      simp_all [List.count_cons, List.count_nil]

/-- A descriptor whose url carries a double quote followed by an event
handler attribute. -/
def xssDesc : PageDescriptor :=
  ⟨['T'], "x\" onmouseover=\"alert(1)".toList, none, none⟩

set_option maxRecDepth 4000 in
/-- C10 fails as stated: every interpolated string does pass through
`escapeHtml`, but `escapeHtml` (a text-node round-trip) leaves double
quotes unescaped, and `url` is interpolated into the double-quoted
`data-url` attribute — so a url containing a quote survives unchanged,
closes the attribute early and injects a new event-handler attribute into
the rendered result row: markup injection that escaping `<` and `>` does
not prevent. -/
theorem C10_attribute_injection_counterexample :
    escapeHtml "x\" onmouseover=\"alert(1)".toList
      = "x\" onmouseover=\"alert(1)".toList ∧
    "data-url=\"x\" onmouseover=\"alert(1)\">".toList
      <:+: resultItemHtml xssDesc := by
  decide

/-- C10 amended: every string interpolated into the rendered search-result
markup (the descriptor's `url`, `title` and `desc` in a result row, the
echoed query in the no-results message) passes through `escapeHtml`,
which escapes `&`, `<` and `>` but not quotes; so the interpolated data
contributes no angle bracket — the counts of `<` and `>` in the rendered
markup are exactly those of the fixed template, whatever the fields or
the query contain, and no field can open or close a tag in the results
list — while a double quote in `url` can still inject attributes into the
quoted `data-url` attribute. -/
theorem C10_rendered_markup_escaped (m : PageDescriptor) (q : Str) :
    (resultItemHtml m).count '<' = (if strTruthy m.desc then 6 else 4) ∧
    (resultItemHtml m).count '>' = (if strTruthy m.desc then 6 else 4) ∧
    (noResultsHtml q).count '<' = 4 ∧
    (noResultsHtml q).count '>' = 4 := by
  rcases m with ⟨t, u, d, tg⟩
  refine ⟨?_, ?_, ?_, ?_⟩
  · cases d with
    | none =>
      simp only [resultItemHtml, strTruthy, List.count_append,
        count_lt_escapeHtml]
      rfl
    | some ds =>
      cases hds : ds.isEmpty with
      | true =>
        simp only [resultItemHtml]
        rw [if_pos hds]
        simp only [strTruthy, hds, List.count_append, count_lt_escapeHtml]
        rfl
      | false =>
        simp only [resultItemHtml]
        rw [if_neg (by rw [hds]; exact Bool.false_ne_true)]
        simp only [strTruthy, hds, List.count_append, count_lt_escapeHtml]
        rfl
  · cases d with
    | none =>
      simp only [resultItemHtml, strTruthy, List.count_append,
        count_gt_escapeHtml]
      rfl
    | some ds =>
      cases hds : ds.isEmpty with
      | true =>
        simp only [resultItemHtml]
        rw [if_pos hds]
        simp only [strTruthy, hds, List.count_append, count_gt_escapeHtml]
        rfl
      | false =>
        simp only [resultItemHtml]
        rw [if_neg (by rw [hds]; exact Bool.false_ne_true)]
        simp only [strTruthy, hds, List.count_append, count_gt_escapeHtml]
        rfl
  · simp only [noResultsHtml, List.count_append, count_lt_escapeHtml]
    rfl
  · simp only [noResultsHtml, List.count_append, count_gt_escapeHtml]
    rfl
